import Mathlib

/-!
Shallow embedding of the TalentScout AI Hiring Assistant
(`src/config.py` and `src/llm_integration.py`): string helpers modelling the
Python primitives used by the code, the validators, the question supplier,
the text-generation adapter, and the conversation stage machine, followed by
theorems settling the specification claims.
-/

/-! Python string primitives, modelled over `List Char`. -/

/-- Python `str.lower()` (ASCII case folding, which covers every string the
program compares). -/
def pyLower (s : String) : String := ⟨s.data.map Char.toLower⟩

/-- Python `str.upper()`. -/
def pyUpper (s : String) : String := ⟨s.data.map Char.toUpper⟩

/-- Python `str.strip()` with no argument: remove whitespace at both ends. -/
def pyStrip (s : String) : String :=
  ⟨((s.data.dropWhile Char.isWhitespace).reverse.dropWhile Char.isWhitespace).reverse⟩

/-- Boolean prefix test on character lists. -/
def listHasPrefix : List Char → List Char → Bool
  | [], _ => true
  | _ :: _, [] => false
  | a :: pa, b :: bs => a = b && listHasPrefix pa bs

/-- Boolean substring (contiguous) test on character lists. -/
def listHasInfix (pat : List Char) : List Char → Bool
  | [] => pat.isEmpty
  | c :: rest => listHasPrefix pat (c :: rest) || listHasInfix pat rest

/-- Python `pat in s` on strings: contiguous-substring containment. -/
def strContains (s pat : String) : Bool := listHasInfix pat.data s.data

/-- Split a character list at every separator character, keeping empty pieces,
like Python `re.split` on a single-character alternative class. -/
def splitOnPred (p : Char → Bool) (l : List Char) : List (List Char) :=
  l.foldr
    (fun c acc =>
      if p c then [] :: acc
      else
        match acc with
        | [] => [[c]]
        | h :: t => (c :: h) :: t)
    [[]]

/-- Python `s.split(sep)` for a single-character separator. -/
def pySplitChar (sep : Char) (s : String) : List String :=
  (splitOnPred (fun c => c = sep) s.data).map (fun l => ⟨l⟩)

/-- Insertion into a Python `dict` modelled as an association list: an existing
key is updated in place, a new key is appended (Python dicts preserve
insertion order). -/
def dictInsert {α : Type} (d : List (String × α)) (k : String) (v : α) :
    List (String × α) :=
  if d.any (fun p => p.1 = k) then
    d.map (fun p => if p.1 = k then (k, v) else p)
  else d ++ [(k, v)]

/-- Lookup in a Python `dict` modelled as an association list. -/
def dictLookup {α : Type} (d : List (String × α)) (k : String) : Option α :=
  match d with
  | [] => none
  | (k', v) :: t => if k' = k then some v else dictLookup t k

/-! Python `float` values as produced by `float(string)`: a finite rational,
or one of the special values nan / inf / -inf, with Python's comparison
semantics (nan compares false against everything). -/

inductive PyFloat where
  | finite (q : ℚ)
  | nan
  | inf
  | neginf
deriving DecidableEq

/-- Python `x < c` for a float `x` and a (finite, rational) constant `c`. -/
def PyFloat.ltQ : PyFloat → ℚ → Bool
  | PyFloat.finite q, c => decide (q < c)
  | PyFloat.nan, _ => false
  | PyFloat.inf, _ => false
  | PyFloat.neginf, _ => true

/-- Python `x > c` for a float `x` and a (finite, rational) constant `c`. -/
def PyFloat.gtQ : PyFloat → ℚ → Bool
  | PyFloat.finite q, c => decide (c < q)
  | PyFloat.nan, _ => false
  | PyFloat.inf, _ => true
  | PyFloat.neginf, _ => false

/-- Rendering of a float into prompt text (the program only interpolates the
value into prompts, never branches on the rendering). -/
def PyFloat.str : PyFloat → String
  | PyFloat.finite q => toString q.num ++ "/" ++ toString q.den
  | PyFloat.nan => "nan"
  | PyFloat.inf => "inf"
  | PyFloat.neginf => "-inf"

/-- Numeric value of a list of decimal digit characters. -/
def digitsVal (l : List Char) : Nat := l.foldl (fun a c => a * 10 + (c.toNat - 48)) 0

/-- Parse the exponent digits (after an optional sign) of a float literal. -/
def parseExpDigits (r : List Char) : Option Int :=
  match r with
  | '+' :: t => if t ≠ [] && t.all Char.isDigit then some (Int.ofNat (digitsVal t)) else none
  | '-' :: t => if t ≠ [] && t.all Char.isDigit then some (-(Int.ofNat (digitsVal t))) else none
  | t => if t ≠ [] && t.all Char.isDigit then some (Int.ofNat (digitsVal t)) else none

/-- Parse the optional exponent part of a float literal; `[]` means exponent 0. -/
def parseExpPart : List Char → Option Int
  | [] => some 0
  | 'e' :: r => parseExpDigits r
  | 'E' :: r => parseExpDigits r
  | _ => none

/-- Exact rational value of a signed decimal literal with exponent:
`sign * (ip.fp) * 10^e`, built from core integer arithmetic. -/
def decimalVal (sign : Int) (ip fp : List Char) (e : Int) : ℚ :=
  let num : Int := (digitsVal ip * 10 ^ fp.length + digitsVal fp : Nat)
  let num : Int := if sign < 0 then -num else num
  match e with
  | Int.ofNat n => mkRat (num * (10 : Int) ^ n) (10 ^ fp.length)
  | Int.negSucc n => mkRat num (10 ^ (fp.length + n + 1))

/-- Parse the decimal part (after the sign) of a Python float literal. -/
def parseDecimal (sign : Int) (l : List Char) : Option PyFloat :=
  let ip := l.takeWhile Char.isDigit
  let r1 := l.dropWhile Char.isDigit
  match r1 with
  | '.' :: r =>
    let fp := r.takeWhile Char.isDigit
    let r2 := r.dropWhile Char.isDigit
    if ip = [] && fp = [] then none
    else
      match parseExpPart r2 with
      | some e => some (PyFloat.finite (decimalVal sign ip fp e))
      | none => none
  | _ =>
    if ip = [] then none
    else
      match parseExpPart r1 with
      | some e => some (PyFloat.finite (decimalVal sign ip [] e))
      | none => none

/-- Python `float(s)`: strips whitespace, accepts an optional sign followed by
a decimal literal (with optional fraction and exponent) or one of the special
spellings `inf`, `infinity`, `nan` (case-insensitive). Returns `none` where
Python raises `ValueError`. -/
def parsePyFloat (s : String) : Option PyFloat :=
  let t := (pyStrip s).data
  match t with
  | [] => none
  | _ =>
    let signRest : Int × List Char :=
      match t with
      | '+' :: r => (1, r)
      | '-' :: r => (-1, r)
      | r => (1, r)
    let sign := signRest.1
    let rest := signRest.2
    let low := rest.map Char.toLower
    if low = "inf".data || low = "infinity".data then
      some (if sign < 0 then PyFloat.neginf else PyFloat.inf)
    else if low = "nan".data then some PyFloat.nan
    else parseDecimal sign rest

/-! Validators (`validation .py` section of `src/llm_integration.py`). -/

/-- The `validators.email` call is an external library; the embedding abstracts
it as a boolean predicate supplied by the environment. `validate_email` itself
is embedded from the source. -/
def validate_email (emailOk : String → Bool) (email : String) : Bool × String :=
  if email = "" then (false, "Email is required")
  else if !(emailOk email) then (false, "Please enter a valid email address")
  else (true, "")

/-- Embeds `validate_phone`: strips non-digits, digit count must be in 10..15. -/
def validate_phone (phone : String) : Bool × String :=
  if phone = "" then (false, "Phone number is required")
  else
    let cleaned := phone.data.filter Char.isDigit
    if cleaned.length < 10 then (false, "Phone number must be at least 10 digits")
    else if cleaned.length > 15 then (false, "Phone number is too long")
    else (true, "")

/-- Character class of the regex in `validate_name`. -/
def nameChar (c : Char) : Bool :=
  (('a' ≤ c && c ≤ 'z') || ('A' ≤ c && c ≤ 'Z')) || c.isWhitespace ||
    c = '-' || c = '.' || c = '\x27'

/-- Embeds `validate_name`. -/
def validate_name (name : String) : Bool × String :=
  if name = "" || pyStrip name = "" then (false, "Name is required")
  else if (pyStrip name).data.length < 2 then
    (false, "Name must be at least 2 characters long")
  else if !((pyStrip name).data.all nameChar) then
    (false, "Name contains invalid characters")
  else (true, "")

/-- Embeds `validate_experience`: `float(experience)` then range checks, with
`ValueError` mapped to the non-numeric message. -/
def validate_experience (experience : String) : Bool × String :=
  if experience = "" then (false, "Years of experience is required")
  else
    match parsePyFloat experience with
    | none => (false, "Please enter a valid number for years of experience")
    | some years =>
      if years.ltQ 0 then (false, "Years of experience cannot be negative")
      else if years.gtQ 50 then (false, "Years of experience seems too high")
      else (true, "")

/-- Characters removed by `sanitize_input`'s regex. -/
def sanitizedChars : List Char := ['<', '>', '"', '\x27', ';', '\\']

/-- Embeds `sanitize_input`: drop dangerous characters, truncate to 500, strip. -/
def sanitize_input (text : String) : String :=
  if text = "" then ""
  else pyStrip ⟨(text.data.filter (fun c => !(sanitizedChars.contains c))).take 500⟩

/-- Separator class of `re.split(r'[,;|\n]', ...)`. -/
def techSep (c : Char) : Bool := c = ',' || c = ';' || c = '|' || c = '\n'

/-- The token list `[tech.strip() for tech in re.split(r'[,;|\n]', s) if tech.strip()]`
shared by `validate_tech_stack` and `handle_tech_assessment_stage`. -/
def techTokens (s : String) : List String :=
  (splitOnPred techSep s.data).filterMap (fun t =>
    let t' := pyStrip ⟨t⟩
    if t' = "" then none else some t')

/-- Embeds `validate_tech_stack`. -/
def validate_tech_stack (tech_stack : String) : Bool × String :=
  if tech_stack = "" || pyStrip tech_stack = "" then
    (false, "Please enter at least one technology")
  else
    let techs := techTokens tech_stack
    if techs.length = 0 then (false, "Please enter at least one technology")
    else if techs.length > 10 then (false, "Please limit to 10 technologies maximum")
    else (true, "")

/-! Question bank and supplier (`questions (1).py` section of
`src/llm_integration.py`). -/

/-- Embeds `FALLBACK_QUESTION_BANK`: the static curated bank, keyed by
normalized technology name. -/
def FALLBACK_QUESTION_BANK : List (String × List String) :=
  [("react",
    ["What are React Hooks and how do they differ from class components?",
     "Explain the concept of Virtual DOM and its benefits.",
     "How do you handle state management in a large React application?",
     "What is the difference between controlled and uncontrolled components?",
     "How would you optimize the performance of a React application?"]),
   ("angular",
    ["What is dependency injection in Angular and why is it important?",
     "Explain the difference between Angular components and directives.",
     "How do you handle routing in Angular applications?",
     "What are Angular services and how do you create them?",
     "Describe the Angular component lifecycle hooks."]),
   ("vue",
    ["What is the Vue.js reactivity system and how does it work?",
     "Explain the difference between Vue 2 and Vue 3 Composition API.",
     "How do you handle component communication in Vue.js?",
     "What are Vue directives and can you create custom ones?",
     "How would you implement state management in a Vue application?"]),
   ("javascript",
    ["Explain the difference between let, const, and var in JavaScript.",
     "What are closures in JavaScript and provide an example?",
     "How does prototypal inheritance work in JavaScript?",
     "What is the event loop and how does it handle asynchronous operations?",
     "Explain the concept of hoisting in JavaScript."]),
   ("typescript",
    ["What are the main benefits of using TypeScript over JavaScript?",
     "Explain generics in TypeScript with an example.",
     "What is the difference between interface and type in TypeScript?",
     "How do you handle optional properties and null checks in TypeScript?",
     "What are decorators in TypeScript and how are they used?"]),
   ("python",
    ["What are Python decorators and how do you create custom ones?",
     "Explain the difference between lists and tuples in Python.",
     "How does Python\x27s garbage collection work?",
     "What is the Global Interpreter Lock (GIL) in Python?",
     "How do you handle exceptions in Python applications?"]),
   ("java",
    ["Explain the concept of Object-Oriented Programming in Java.",
     "What is the difference between abstract classes and interfaces?",
     "How does garbage collection work in Java?",
     "What are Java Streams and how do you use them?",
     "Explain the concept of multithreading in Java."]),
   ("node",
    ["What is the event-driven architecture in Node.js?",
     "How do you handle asynchronous operations in Node.js?",
     "What is the difference between require() and import in Node.js?",
     "How do you manage memory leaks in Node.js applications?",
     "Explain the concept of middleware in Express.js."]),
   ("express",
    ["How do you implement authentication in Express.js?",
     "What are Express.js middleware functions and how do they work?",
     "How do you handle error handling in Express applications?",
     "What is the difference between app.use() and app.get() in Express?",
     "How do you implement rate limiting in Express.js?"]),
   ("mongodb",
    ["What is the difference between SQL and NoSQL databases?",
     "How do you design schemas in MongoDB?",
     "What are MongoDB aggregation pipelines?",
     "How do you handle indexing in MongoDB for performance?",
     "Explain the concept of sharding in MongoDB."]),
   ("mysql",
    ["What are the different types of JOINs in MySQL?",
     "How do you optimize MySQL queries for better performance?",
     "What is database normalization and why is it important?",
     "How do you handle transactions in MySQL?",
     "What are stored procedures and when would you use them?"]),
   ("postgresql",
    ["What are the advantages of PostgreSQL over other databases?",
     "How do you implement full-text search in PostgreSQL?",
     "What are PostgreSQL extensions and how do you use them?",
     "How do you handle JSON data in PostgreSQL?",
     "Explain the concept of ACID properties in PostgreSQL."]),
   ("aws",
    ["What are the core services of AWS and their use cases?",
     "How do you implement auto-scaling in AWS?",
     "What is the difference between EC2 and Lambda?",
     "How do you secure applications deployed on AWS?",
     "Explain the concept of Infrastructure as Code with AWS."]),
   ("docker",
    ["What is containerization and how does Docker implement it?",
     "How do you optimize Docker images for production?",
     "What is the difference between Docker images and containers?",
     "How do you handle data persistence in Docker containers?",
     "Explain Docker networking and how containers communicate."]),
   ("kubernetes",
    ["What are the core components of Kubernetes architecture?",
     "How do you deploy applications to Kubernetes clusters?",
     "What are Kubernetes pods and how do they work?",
     "How do you handle service discovery in Kubernetes?",
     "Explain the concept of Kubernetes namespaces."])]

/-- Embeds the `tech_mapping` alias table of `normalize_tech_name`. -/
def tech_mapping : List (String × String) :=
  [("js", "javascript"), ("ts", "typescript"), ("nodejs", "node"),
   ("node.js", "node"), ("reactjs", "react"), ("react.js", "react"),
   ("angularjs", "angular"), ("vuejs", "vue"), ("vue.js", "vue"),
   ("mongo", "mongodb"), ("postgres", "postgresql"), ("k8s", "kubernetes"),
   ("expressjs", "express"), ("express.js", "express")]

/-- Embeds `normalize_tech_name`. -/
def normalize_tech_name (tech : String) : String :=
  let tech_lower := pyStrip (pyLower tech)
  match dictLookup tech_mapping tech_lower with
  | some v => v
  | none => tech_lower

/-- The three templated generic questions synthesized by
`get_fallback_questions` for an unknown technology. -/
def generic_questions (tech : String) : List String :=
  ["What are the key features and benefits of " ++ tech ++ "?",
   "How would you implement best practices when working with " ++ tech ++ "?",
   "What challenges have you faced while working with " ++ tech ++
     " and how did you solve them?"]

/-- Embeds `get_fallback_questions`. The `random.sample` call on the static
bank is an injected randomness source `sample available k`, which must pick
`k` elements of `available`. -/
def get_fallback_questions (sample : List String → Nat → List String)
    (tech : String) (max_questions : Nat) : List String :=
  let normalized_tech := normalize_tech_name tech
  match dictLookup FALLBACK_QUESTION_BANK normalized_tech with
  | some available_questions =>
      sample available_questions (min available_questions.length max_questions)
  | none => (generic_questions tech).take max_questions

/-! Text-generation adapter (`GeminiClient` of `src/llm_integration.py`).
The external generative capability is modelled as an oracle assigning each
attempt number an outcome: an exception, or a response object whose `.text`
is the given string (the empty string standing for a falsy `.text`). A
`none` model is an unconfigured client (missing API key). -/

inductive GenOutcome where
  | raise
  | text (s : String)
deriving DecidableEq

/-- The three canned lines of `GeminiClient._fallback_technical_questions`. -/
def fallback_technical_questions_list : List String :=
  ["1. Describe a challenging project you\x27ve worked on and how you approached solving the technical problems.",
   "2. How do you ensure code quality and maintainability in your projects?",
   "3. Explain a time when you had to learn a new technology quickly. How did you approach it?"]

/-- Embeds `GeminiClient._fallback_technical_questions` (the joined string). -/
def fallback_technical_questions : String :=
  String.intercalate "\n" fallback_technical_questions_list

/-- Embeds the canned list of `GeminiClient._fallback_evaluation`. -/
def fallback_evaluations : List String :=
  ["Thank you for that detailed explanation. Your experience shows good technical understanding.",
   "I appreciate your thorough response. That demonstrates solid problem-solving skills.",
   "Great answer! Your approach shows good technical thinking and practical experience."]

/-- Embeds `GeminiClient._fallback_response`; `random.choice` in
`_fallback_evaluation` is an injected index `pick` (reduced mod the list
length). -/
def fallback_response (pick : Nat) (prompt : String) : String :=
  if strContains (pyLower prompt) "technical question" then
    fallback_technical_questions
  else if strContains (pyLower prompt) "evaluate" || strContains (pyLower prompt) "response" then
    (fallback_evaluations.get? (pick % fallback_evaluations.length)).getD ""
  else "Thank you for your response. Let\x27s continue with the next step."

/-- The retry loop of `GeminiClient.generate_response`, walked over the list
of remaining attempt numbers. Returns the response together with the list of
backoff sleep durations (`time.sleep(2 ** attempt)`) performed. -/
def genAttempts (oracle : Nat → GenOutcome) (pick : Nat) (prompt : String)
    (max_retries : Nat) : List Nat → String × List Nat
  | [] => (fallback_response pick prompt, [])
  | a :: rest =>
    match oracle a with
    | GenOutcome.text s =>
      if s ≠ "" then (pyStrip s, [])
      else genAttempts oracle pick prompt max_retries rest
    | GenOutcome.raise =>
      if a = max_retries - 1 then (fallback_response pick prompt, [])
      else
        let r := genAttempts oracle pick prompt max_retries rest
        (r.1, 2 ^ a :: r.2)

/-- Embeds `GeminiClient.generate_response` (result, backoff sleeps). -/
def generate_response (model : Option (Nat → GenOutcome)) (pick : Nat)
    (prompt : String) (max_retries : Nat) : String × List Nat :=
  match model with
  | none => (fallback_response pick prompt, [])
  | some oracle => genAttempts oracle pick prompt max_retries (List.range max_retries)

/-- Experience tier used by `generate_technical_questions`. -/
def experienceLevel (experience_years : PyFloat) : String :=
  if experience_years.ltQ 2 then "junior"
  else if experience_years.ltQ 5 then "mid-level"
  else "senior"

/-- Embeds `SYSTEM_PROMPTS["TECHNICAL_QUESTION_GENERATOR"].format(...)`
(`src/config.py`), built by concatenation in place of `str.format`. -/
def technical_question_generator_prompt (num_questions : Nat) (technology : String)
    (experience_level : String) (years : PyFloat) : String :=
  "You are an expert technical interviewer for a hiring company called TalentScout. \n    Generate "
    ++ toString num_questions
    ++ " relevant, practical technical questions for a candidate with experience in "
    ++ technology
    ++ ".\n    \n    Questions should be:\n    - Appropriate for "
    ++ experience_level
    ++ " level ("
    ++ years.str
    ++ " years experience)\n    - Focused on real-world application, not just theory\n    - Clear and specific\n    - Progressively challenging\n    \n    Return only the questions, numbered 1-"
    ++ toString num_questions
    ++ ", without additional commentary."

/-- Embeds `SYSTEM_PROMPTS["RESPONSE_EVALUATOR"].format(...)` (`src/config.py`). -/
def response_evaluator_prompt (question technology answer : String) : String :=
  "You are an expert technical interviewer evaluating a candidate\x27s response.\n    \n    Question: "
    ++ question
    ++ "\n    Technology: "
    ++ technology
    ++ "\n    Candidate\x27s Answer: "
    ++ answer
    ++ "\n    \n    Provide a brief, encouraging follow-up response (2-3 sentences) that:\n    - Acknowledges their answer professionally\n    - Shows you understand their response\n    - Maintains a positive, supportive tone\n    - Does NOT reveal if the answer is correct or incorrect\n    \n    Keep it conversational and encouraging."

/-- Drop characters up to and including the first `'.'` (the tail of Python
`line.split('.', 1)[-1]` when a dot is present). -/
def afterFirstDot : List Char → List Char
  | [] => []
  | c :: r => if c = '.' then r else afterFirstDot r

/-- Embeds the response-parsing loop of `generate_technical_questions`: keep
trimmed lines starting with a digit, `-` or bullet, strip numbering and
leading markers, drop empties. -/
def parse_questions (response : String) : List String :=
  (pySplitChar '\n' response).filterMap (fun rawLine =>
    let line := pyStrip rawLine
    match line.data with
    | [] => none
    | c :: _ =>
      if c.isDigit || c = '-' || c = '•' then
        let question :=
          if line.data.contains '.' then pyStrip ⟨afterFirstDot line.data⟩ else line
        let question := pyStrip ⟨question.data.dropWhile (fun ch => ch = '-' || ch = '•')⟩
        if question = "" then none else some question
      else none)

/-- The three padding templates appended by `generate_technical_questions`
when parsing yields fewer than the requested number of questions. -/
def gtq_pad_templates (technology : String) : List String :=
  ["What are the key features and benefits of " ++ technology ++ "?",
   "Describe a project where you used " ++ technology ++ " effectively.",
   "What challenges have you faced when working with " ++ technology ++ "?"]

/-- The prompt built by `generate_technical_questions`. -/
def gtq_prompt (technology : String) (experience_years : PyFloat)
    (num_questions : Nat) : String :=
  technical_question_generator_prompt num_questions technology
    (experienceLevel experience_years) experience_years

/-- The parsed question list obtained by `generate_technical_questions` from
the adapter's response (`max_retries` is the Python default 3). -/
def gtq_parsed (model : Option (Nat → GenOutcome)) (pick : Nat) (technology : String)
    (experience_years : PyFloat) (num_questions : Nat) : List String :=
  parse_questions
    (generate_response model pick (gtq_prompt technology experience_years num_questions) 3).1

/-- Embeds `generate_technical_questions`: parse, pad with the templates if
short, truncate to the requested count. -/
def generate_technical_questions (model : Option (Nat → GenOutcome)) (pick : Nat)
    (technology : String) (experience_years : PyFloat) (num_questions : Nat) :
    List String :=
  let questions := gtq_parsed model pick technology experience_years num_questions
  let questions :=
    if questions.length < num_questions then
      questions ++ (gtq_pad_templates technology).take (num_questions - questions.length)
    else questions
  questions.take num_questions

/-- Embeds `evaluate_technical_response`. -/
def evaluate_technical_response (model : Option (Nat → GenOutcome)) (pick : Nat)
    (question answer technology : String) : String :=
  (generate_response model pick (response_evaluator_prompt question technology answer) 3).1

/-- Embeds `generate_questions_for_tech_stack`: one dict entry per technology
(later duplicates overwrite, as for a Python dict). The embedded
`generate_technical_questions` is total, so the `except` arm of the source is
unreachable here; the non-empty check mirrors
`if llm_questions and len(llm_questions) > 0`. -/
def generate_questions_for_tech_stack (model : Option (Nat → GenOutcome)) (pick : Nat)
    (sample : List String → Nat → List String) (tech_stack : List String)
    (max_questions_per_tech : Nat) (candidate_experience : PyFloat) :
    List (String × List String) :=
  tech_stack.foldl
    (fun questions_by_tech tech =>
      let llm_questions :=
        generate_technical_questions model pick tech candidate_experience max_questions_per_tech
      if llm_questions ≠ [] then dictInsert questions_by_tech tech llm_questions
      else dictInsert questions_by_tech tech
        (get_fallback_questions sample tech max_questions_per_tech))
    []

/-! Conversation stage machine (`ConversationManager` in `src/config.py`).
Session state is the relevant slice of `st.session_state`; handlers are
functions from state and input to the reply text and the new state. The
multi-line reply texts are transcribed without the incidental indentation of
the Python triple-quoted literals. An `Option` result models an uncaught
Python exception (`none`): no reply, no state change. -/

inductive Stage where
  | greeting
  | consent
  | info_collection
  | tech_assessment
  | technical_questions
  | completion
deriving DecidableEq

/-- One entry of `st.session_state.messages`. -/
structure ChatMessage where
  role : String
  content : String
deriving DecidableEq

/-- One stored answer record in `candidate_data['answers']`. -/
structure AnswerRec where
  question : String
  answer : String
  technology : String
deriving DecidableEq

/-- The `candidate_data` dict; `none` models an absent key. -/
structure CandidateData where
  name : Option String := none
  email : Option String := none
  phone : Option String := none
  experience : Option PyFloat := none
  tech_stack : Option (List String) := none
  answers : List (String × AnswerRec) := []
deriving DecidableEq

/-- The per-session mutable state initialized by `ConversationManager.__init__`. -/
structure SessionState where
  stage : Stage := Stage.greeting
  candidate_data : CandidateData := {}
  messages : List ChatMessage := []
  current_question_index : Nat := 0
  technical_questions : List (String × List String) := []
  consent_given : Bool := false
deriving DecidableEq

/-- The fresh state built by `__init__` / the restart branch. -/
def initialSessionState : SessionState := {}

/-- External collaborators of the stage machine: the email validator library,
the question supplier (`generate_questions_for_tech_stack` with its model,
randomness and configuration bound) and the answer evaluator
(`evaluate_technical_response` likewise). -/
structure Collab where
  emailOk : String → Bool
  qsupply : List String → PyFloat → List (String × List String)
  evalResp : String → String → String → String

/-- Embeds `EXIT_KEYWORDS` (`src/config.py`). -/
def EXIT_KEYWORDS : List String :=
  ["exit", "quit", "bye", "goodbye", "stop", "end", "finish",
   "no thanks", "not interested", "cancel"]

/-- Outcome of `check_exit_intent`: no exit, an exit-keyword hit (returns
`True`), or a data-deletion request (side effect `st.stop()` raises). -/
inductive ExitCheck where
  | noExit
  | exitKeyword
  | deletionRequest
deriving DecidableEq

/-- Embeds `ConversationManager.check_exit_intent`. -/
def check_exit_intent (user_input : String) : ExitCheck :=
  if user_input = "" then ExitCheck.noExit
  else
    let user_input_lower := pyStrip (pyLower user_input)
    if EXIT_KEYWORDS.contains user_input_lower then ExitCheck.exitKeyword
    else if EXIT_KEYWORDS.any (fun keyword => strContains user_input_lower keyword) then
      ExitCheck.exitKeyword
    else if strContains user_input_lower "delete my data" ||
        strContains user_input_lower "delete data" then
      ExitCheck.deletionRequest
    else ExitCheck.noExit

/-- The greeting text of `handle_greeting_stage`. -/
def greeting_message : String :=
  "👋 **Welcome to TalentScout AI Hiring Assistant!**\n\nI\x27m here to help assess your technical skills and match you with exciting opportunities. \n\nThis conversation will take about 5-10 minutes and will cover:\n• Basic information collection\n• Your technology experience\n• A few technical questions based on your skills\n\nBefore we begin, I need to inform you about our data privacy practices.\n\n**Type \x27continue\x27 to proceed to the privacy notice, or \x27exit\x27 to leave.**"

/-- Embeds `handle_greeting_stage`: ignores input, advances to Consent. -/
def handle_greeting_stage (st : SessionState) : String × SessionState :=
  (greeting_message, { st with stage := Stage.consent })

/-- Embeds `get_privacy_notice` (`privacy .py` section of
`src/llm_integration.py`). -/
def privacy_notice : String :=
  "**Privacy Notice for TalentScout AI Hiring Assistant**\n\nBy using this service, you acknowledge that:\n\n• **Data Collection**: We collect your name, email, phone number, experience level, and technology skills for recruitment purposes only.\n\n• **Data Usage**: Your information will be used solely to assess your technical qualifications and match you with relevant opportunities.\n\n• **Data Security**: All data is encrypted and securely stored. Sensitive information is hashed for logging purposes.\n\n• **Data Retention**: Your data will be retained for 30 days maximum, after which it will be automatically deleted.\n\n• **Your Rights**: You can request data deletion at any time by typing \x27delete my data\x27 during the conversation.\n\n• **No Third-Party Sharing**: Your information will not be shared with third parties without explicit consent.\n\n• **Contact**: For privacy concerns, contact us at privacy@talentscout.com\n\nDo you consent to the collection and processing of your data as described above?"

/-- Embeds `handle_consent_stage`. -/
def handle_consent_stage (st : SessionState) (user_input : String) :
    String × SessionState :=
  if user_input = "" then
    ("Please type \x27continue\x27 to proceed or \x27exit\x27 to leave.", st)
  else
    let user_input_lower := pyStrip (pyLower user_input)
    if ["continue", "proceed", "next", "yes"].contains user_input_lower then
      (privacy_notice ++
         "\n\n**Please type \x27I consent\x27 to agree and continue, or \x27exit\x27 to leave.**",
       { st with stage := Stage.info_collection })
    else
      ("Please type \x27continue\x27 to proceed with the privacy notice, or \x27exit\x27 to leave the conversation.",
       st)

/-- Embeds `_start_info_collection`. -/
def start_info_collection_message : String :=
  "✅ **Thank you for your consent!**\n\nNow, let\x27s collect some basic information about you.\n\n**Please provide your full name:**"

/-- The prompt returned when the experience field completes (advancing to
TechAssessment). -/
def tech_assessment_intro_message : String :=
  "**Fantastic! Now let\x27s talk about your technical skills.**\n\nPlease list the programming languages, frameworks, and technologies you\x27re proficient in.\nYou can separate them with commas (e.g., \"Python, React, MongoDB, AWS\"):"

/-- Embeds `_collect_candidate_info`: validate and store the first field, in
the fixed order name → email → phone → experience, that is absent from
`candidate_data`. The experience branch performs `float(user_input)`, which
cannot fail after `validate_experience` accepted (`none` would model the
exception). -/
def collect_candidate_info (c : Collab) (st : SessionState) (user_input : String) :
    Option (String × SessionState) :=
  let candidate_data := st.candidate_data
  if candidate_data.name = none then
    let v := validate_name user_input
    if !v.1 then some ("❌ " ++ v.2 ++ "\n\n**Please provide your full name:**", st)
    else
      some ("**Great! Now please provide your email address:**",
        { st with candidate_data :=
            { candidate_data with name := some (sanitize_input user_input) } })
  else if candidate_data.email = none then
    let v := validate_email c.emailOk user_input
    if !v.1 then some ("❌ " ++ v.2 ++ "\n\n**Please provide your email address:**", st)
    else
      some ("**Perfect! Now please provide your phone number:**",
        { st with candidate_data :=
            { candidate_data with email := some (sanitize_input user_input) } })
  else if candidate_data.phone = none then
    let v := validate_phone user_input
    if !v.1 then some ("❌ " ++ v.2 ++ "\n\n**Please provide your phone number:**", st)
    else
      some ("**Excellent! How many years of professional experience do you have? (Enter a number):**",
        { st with candidate_data :=
            { candidate_data with phone := some (sanitize_input user_input) } })
  else if candidate_data.experience = none then
    let v := validate_experience user_input
    if !v.1 then
      some ("❌ " ++ v.2 ++
        "\n\n**Please enter your years of professional experience (as a number):**", st)
    else
      match parsePyFloat user_input with
      | none => none
      | some years =>
        some (tech_assessment_intro_message,
          { st with
              candidate_data := { candidate_data with experience := some years },
              stage := Stage.tech_assessment })
  else some ("Something went wrong. Please try again.", st)

/-- Embeds `handle_info_collection_stage`: consent gate, then field collection. -/
def handle_info_collection_stage (c : Collab) (st : SessionState)
    (user_input : String) : Option (String × SessionState) :=
  if !st.consent_given then
    if ["i consent", "consent", "agree", "i agree"].contains (pyStrip (pyLower user_input)) then
      some (start_info_collection_message, { st with consent_given := true })
    else
      some ("Please type \x27I consent\x27 to agree to our privacy policy and continue, or \x27exit\x27 to leave.",
        st)
  else collect_candidate_info c st user_input

/-- Embeds `handle_tech_assessment_stage`: validate, parse and store the tech
stack, generate and store the question set, advance to TechnicalQuestions. -/
def handle_tech_assessment_stage (c : Collab) (st : SessionState)
    (user_input : String) : String × SessionState :=
  let v := validate_tech_stack user_input
  if !v.1 then
    ("❌ " ++ v.2 ++ "\n\n**Please list your technical skills (separated by commas):**", st)
  else
    let tech_list := techTokens user_input
    let candidate_data := { st.candidate_data with tech_stack := some tech_list }
    let candidate_experience := candidate_data.experience.getD (PyFloat.finite 2)
    let questions_by_tech := c.qsupply tech_list candidate_experience
    let total_questions := (questions_by_tech.map (fun p => p.2.length)).sum
    ("**Excellent! I\x27ve identified your technical expertise in: "
       ++ String.intercalate ", " tech_list
       ++ "**\n\nBased on your "
       ++ candidate_experience.str
       ++ " years of experience and skills, I\x27ve prepared "
       ++ toString total_questions
       ++ " personalized technical questions to better assess your knowledge.\n\n**Ready to begin the technical assessment? Type \x27ready\x27 to start:**",
     { st with
         candidate_data := candidate_data,
         technical_questions := questions_by_tech,
         stage := Stage.technical_questions })

/-- The flat `(tech, question)` list rebuilt on every TechnicalQuestions call
(technology insertion order, then per-technology order). -/
def flattenQuestions (tq : List (String × List String)) : List (String × String) :=
  tq.foldr (fun p acc => p.2.map (fun q => (p.1, q)) ++ acc) []

/-- The fixed fallback acknowledgment substituted when answer evaluation
raises. -/
def fallback_eval_ack : String :=
  "Thank you for that detailed explanation. Your technical knowledge is evident in your response."

/-- The question-emission text: 1-based progress header, question, prompt. -/
def question_prompt (current_index total : Nat) (tech question : String) : String :=
  "**Question " ++ toString (current_index + 1) ++ " of " ++ toString total
    ++ " (" ++ pyUpper tech ++ ")**\n\n" ++ question
    ++ "\n\n**Please provide your answer:**"

/-- Embeds `_complete_assessment` (the summary text; the caller has already
set the stage to Completion). -/
def complete_assessment_message (st : SessionState) : String :=
  let candidate_data := st.candidate_data
  "🎉 **Congratulations, " ++ candidate_data.name.getD "Candidate"
    ++ "!**\n\nYou\x27ve successfully completed the TalentScout AI technical assessment!\n\n**Assessment Summary:**\n• **Name:** "
    ++ candidate_data.name.getD "N/A"
    ++ "\n• **Experience:** "
    ++ (match candidate_data.experience with
        | some e => e.str
        | none => "N/A")
    ++ " years\n• **Technologies:** "
    ++ String.intercalate ", " (candidate_data.tech_stack.getD [])
    ++ "\n• **Questions Answered:** "
    ++ toString candidate_data.answers.length
    ++ "\n\n**What happens next?**\n1. Our technical team will review your responses\n2. We\x27ll match your profile with suitable opportunities\n3. You\x27ll hear from us within 2-3 business days at "
    ++ candidate_data.email.getD "your email"
    ++ "\n\n**Thank you for your time and interest in TalentScout opportunities!**\n\nYou can now close this window or type \x27restart\x27 to begin a new assessment."

/-- Embeds `handle_technical_questions_stage`: empty-question-set guard,
ready guard at cursor 0, store-and-evaluate the previous answer for cursor
`> 0` and non-blank input, completion check, then emit the question at the
cursor and advance it by one. `none` models the `IndexError` the source
would raise on `all_questions[current_index - 1]` out of range. -/
def handle_technical_questions_stage (c : Collab) (st : SessionState)
    (user_input : String) : Option (String × SessionState) :=
  if st.technical_questions = [] then
    some ("No technical questions available. Something went wrong.", st)
  else if st.current_question_index = 0 &&
      !(["ready", "start", "begin", "yes"].contains (pyStrip (pyLower user_input))) then
    some ("**Type \x27ready\x27 when you\x27re prepared to start the technical questions:**", st)
  else
    let all_questions := flattenQuestions st.technical_questions
    let current_index := st.current_question_index
    let stored : Option SessionState :=
      if current_index > 0 && pyStrip user_input ≠ "" then
        match all_questions.get? (current_index - 1) with
        | none => none
        | some prev =>
          let key := prev.1 ++ "_" ++ toString (current_index - 1)
          let ansRec : AnswerRec :=
            { question := prev.2, answer := sanitize_input user_input,
              technology := prev.1 }
          let cd := st.candidate_data
          let cd := { cd with answers := dictInsert cd.answers key ansRec }
          let evaluation_response := c.evalResp prev.2 user_input prev.1
          some { st with
              candidate_data := cd,
              messages := st.messages ++ [{ role := "assistant", content := evaluation_response }] }
      else some st
    match stored with
    | none => none
    | some st1 =>
      if current_index ≥ all_questions.length then
        some (complete_assessment_message st1, { st1 with stage := Stage.completion })
      else
        match all_questions.get? current_index with
        | none => none
        | some tq =>
          some (question_prompt current_index all_questions.length tq.1 tq.2,
            { st1 with current_question_index := current_index + 1 })

/-- The farewell text returned on exit intent. -/
def farewell_message : String :=
  "👋 **Thank you for your interest in TalentScout!**\n\nYour session has been ended. If you\x27d like to complete the assessment later, \nplease start a new conversation.\n\nHave a great day!"

/-- The terminal Completion-stage reply. -/
def completion_stage_message : String :=
  "Assessment completed! Type \x27restart\x27 to begin a new assessment or close the window."

/-- Embeds `ConversationManager.process_message`: empty-input guard, exit
check, restart, then stage dispatch. The restart branch clears the session
and immediately runs the greeting handler (which advances to Consent). A
deletion request raises `st.stop()` inside the exit check (`none`). -/
def process_message (c : Collab) (st : SessionState) (user_input : String) :
    Option (String × SessionState) :=
  if user_input = "" then some ("Please provide a response to continue.", st)
  else
    match check_exit_intent user_input with
    | ExitCheck.exitKeyword => some (farewell_message, st)
    | ExitCheck.deletionRequest => none
    | ExitCheck.noExit =>
      if pyStrip (pyLower user_input) = "restart" then
        some (handle_greeting_stage initialSessionState)
      else
        match st.stage with
        | Stage.greeting => some (handle_greeting_stage st)
        | Stage.consent => some (handle_consent_stage st user_input)
        | Stage.info_collection => handle_info_collection_stage c st user_input
        | Stage.tech_assessment => some (handle_tech_assessment_stage c st user_input)
        | Stage.technical_questions => handle_technical_questions_stage c st user_input
        | Stage.completion => some (completion_stage_message, st)

/-- Position of a stage in the fixed linear order. -/
def stageIdx : Stage → Nat
  | Stage.greeting => 0
  | Stage.consent => 1
  | Stage.info_collection => 2
  | Stage.tech_assessment => 3
  | Stage.technical_questions => 4
  | Stage.completion => 5

/-- The default sampling function used to close concrete scenarios (a valid
instance of `random.sample`: the first `k` elements). -/
def defaultSample : List String → Nat → List String := fun l k => l.take k

/-- A concrete collaborator bundle: generation unavailable (no model), pick 0,
default sampling, permissive email library. -/
def collab0 : Collab where
  emailOk := fun _ => true
  qsupply := fun tech_stack exp =>
    generate_questions_for_tech_stack none 0 defaultSample tech_stack 3 exp
  evalResp := fun question answer technology =>
    evaluate_technical_response none 0 question answer technology

/-! Helper lemmas about the embedded primitives. -/

theorem dictLookup_map_update {α : Type} (d : List (String × α)) (k : String) (v : α)
    (h : d.any (fun p => p.1 = k) = true) :
    dictLookup (d.map (fun p => if p.1 = k then (k, v) else p)) k = some v := by
  induction d with
  | nil => simp at h
  | cons p t ih =>
    simp only [List.map_cons]
    by_cases hp : p.1 = k
    · rw [if_pos hp]
      simp [dictLookup]
    · rw [if_neg hp]
      simp only [dictLookup]
      rw [if_neg hp]
      apply ih
      simp only [List.any_cons, Bool.or_eq_true, decide_eq_true_eq] at h
      rcases h with h | h
      · exact absurd h hp
      · exact h

theorem dictLookup_append_self {α : Type} (d : List (String × α)) (k : String) (v : α)
    (h : d.any (fun p => p.1 = k) = false) :
    dictLookup (d ++ [(k, v)]) k = some v := by
  induction d with
  | nil => simp [dictLookup]
  | cons p t ih =>
    rw [List.any_cons] at h
    have h1 : decide (p.1 = k) = false ∧ t.any (fun p => p.1 = k) = false := by
      cases hfp : decide (p.1 = k) <;> cases hta : t.any (fun p => decide (p.1 = k)) <;>
        rw [hfp, hta] at h <;> simp_all
    simp only [List.cons_append, dictLookup]
    rw [if_neg (of_decide_eq_false h1.1)]
    exact ih h1.2

theorem dictLookup_dictInsert {α : Type} (d : List (String × α)) (k : String) (v : α) :
    dictLookup (dictInsert d k v) k = some v := by
  unfold dictInsert
  by_cases h : d.any (fun p => p.1 = k) = true
  · rw [if_pos h]; exact dictLookup_map_update d k v h
  · rw [if_neg h]
    exact dictLookup_append_self d k v (Bool.of_not_eq_true h)

theorem listHasPrefix_append (p l r : List Char) (h : listHasPrefix p l = true) :
    listHasPrefix p (l ++ r) = true := by
  induction p generalizing l with
  | nil => rfl
  | cons a pa ih =>
    cases l with
    | nil => simp [listHasPrefix] at h
    | cons b bs =>
      simp only [listHasPrefix, Bool.and_eq_true] at h
      simp only [List.cons_append, listHasPrefix, Bool.and_eq_true]
      exact ⟨h.1, ih bs h.2⟩

theorem listHasInfix_nil_pat (l : List Char) : listHasInfix [] l = true := by
  cases l with
  | nil => rfl
  | cons c t => simp [listHasInfix, listHasPrefix]

theorem listHasInfix_append_left (p a b : List Char) (h : listHasInfix p a = true) :
    listHasInfix p (a ++ b) = true := by
  induction a with
  | nil =>
    have hp : p = [] := by simpa [listHasInfix, List.isEmpty_iff] using h
    subst hp; exact listHasInfix_nil_pat _
  | cons c t ih =>
    simp only [listHasInfix, Bool.or_eq_true] at h
    simp only [List.cons_append, listHasInfix, Bool.or_eq_true]
    rcases h with h | h
    · exact Or.inl (listHasPrefix_append p (c :: t) b h)
    · exact Or.inr (ih h)

theorem listHasInfix_append_right (p a b : List Char) (h : listHasInfix p b = true) :
    listHasInfix p (a ++ b) = true := by
  induction a with
  | nil => exact h
  | cons c t ih =>
    simp only [List.cons_append, listHasInfix, Bool.or_eq_true]
    exact Or.inr ih

theorem string_data_append (a b : String) : (a ++ b).data = a.data ++ b.data := by
  cases a; cases b; rfl

theorem pyLower_append (a b : String) : pyLower (a ++ b) = pyLower a ++ pyLower b := by
  cases a with
  | mk da =>
    cases b with
    | mk db =>
      show String.mk ((String.mk da ++ String.mk db).data.map Char.toLower) = _
      rw [string_data_append, List.map_append]
      rfl

theorem strContains_mono_right (a b pat : String) (h : strContains b pat = true) :
    strContains (a ++ b) pat = true := by
  unfold strContains at h ⊢
  rw [string_data_append]
  exact listHasInfix_append_right _ _ _ h

theorem strContains_mono_left (a b pat : String) (h : strContains a pat = true) :
    strContains (a ++ b) pat = true := by
  unfold strContains at h ⊢
  rw [string_data_append]
  exact listHasInfix_append_left _ _ _ h

theorem strContains_pyLower_left (a b pat : String)
    (h : strContains (pyLower a) pat = true) :
    strContains (pyLower (a ++ b)) pat = true := by
  rw [pyLower_append]
  exact strContains_mono_left _ _ _ h

theorem strContains_pyLower_right (a b pat : String)
    (h : strContains (pyLower b) pat = true) :
    strContains (pyLower (a ++ b)) pat = true := by
  rw [pyLower_append]
  exact strContains_mono_right _ _ _ h

theorem toLower_of_whitespace (c : Char) (h : c.isWhitespace = true) : c.toLower = c := by
  simp only [Char.isWhitespace, Bool.or_eq_true, decide_eq_true_eq] at h
  rcases h with ((h | h) | h) | h <;> subst h <;> decide

theorem map_toLower_of_whitespace (l : List Char) (h : l.all Char.isWhitespace = true) :
    l.map Char.toLower = l := by
  induction l with
  | nil => rfl
  | cons c t ih =>
    simp only [List.all_cons, Bool.and_eq_true] at h
    simp [toLower_of_whitespace c h.1, ih h.2]

theorem pyLower_of_whitespace (s : String) (h : s.data.all Char.isWhitespace = true) :
    pyLower s = s := by
  unfold pyLower
  rw [map_toLower_of_whitespace s.data h]

theorem pyStrip_of_whitespace (s : String) (h : s.data.all Char.isWhitespace = true) :
    pyStrip s = "" := by
  unfold pyStrip
  have h1 : s.data.dropWhile Char.isWhitespace = [] := by
    rw [List.dropWhile_eq_nil_iff]
    intro x hx
    exact List.all_eq_true.mp h x hx
  rw [h1]
  rfl

/-! Concrete session states used in the closed scenarios. -/

/-- A TechnicalQuestions-stage state with one question and the cursor already
past it (the candidate is answering the final question). -/
def stTQ1 : SessionState :=
  { stage := Stage.technical_questions, current_question_index := 1,
    technical_questions := [("python", ["Q1"])], consent_given := true }

/-- A TechnicalQuestions-stage state with two questions, cursor 1. -/
def stTQ2 : SessionState :=
  { stage := Stage.technical_questions, current_question_index := 1,
    technical_questions := [("python", ["Q1", "Q2"])], consent_given := true }

/-- A TechAssessment-stage state with a complete profile. -/
def stTA : SessionState :=
  { stage := Stage.tech_assessment, consent_given := true,
    candidate_data :=
      { name := some "John Doe", email := some "j@x.com",
        phone := some "1234567890", experience := some (PyFloat.finite 3) } }

/-- An InfoCollection-stage state just after consent. -/
def stInfo : SessionState := { stage := Stage.info_collection, consent_given := true }

/-! Per-handler facts about the stage field. -/

theorem consent_stage_cases (st : SessionState) (i : String) :
    (handle_consent_stage st i).2.stage = st.stage ∨
      (handle_consent_stage st i).2.stage = Stage.info_collection := by
  simp only [handle_consent_stage]
  split_ifs
  · left; rfl
  · right; rfl
  · left; rfl

set_option linter.unreachableTactic false in
set_option linter.unusedTactic false in
theorem collect_stage_cases (c : Collab) (st : SessionState) (i msg : String)
    (st' : SessionState) (h : collect_candidate_info c st i = some (msg, st')) :
    st'.stage = st.stage ∨ st'.stage = Stage.tech_assessment := by
  simp only [collect_candidate_info] at h
  split_ifs at h <;>
    first
      | (simp only [Option.some.injEq, Prod.mk.injEq] at h
         obtain ⟨-, h2⟩ := h
         subst h2
         first | (left; rfl) | (right; rfl))
      | (split at h <;>
          first
            | exact Option.noConfusion h
            | (simp only [Option.some.injEq, Prod.mk.injEq] at h
               obtain ⟨-, h2⟩ := h
               subst h2
               first | (left; rfl) | (right; rfl)))

theorem info_stage_cases (c : Collab) (st : SessionState) (i msg : String)
    (st' : SessionState) (h : handle_info_collection_stage c st i = some (msg, st')) :
    st'.stage = st.stage ∨ st'.stage = Stage.tech_assessment := by
  simp only [handle_info_collection_stage] at h
  split_ifs at h
  · simp only [Option.some.injEq, Prod.mk.injEq] at h
    obtain ⟨-, h2⟩ := h
    subst h2
    left; rfl
  · simp only [Option.some.injEq, Prod.mk.injEq] at h
    obtain ⟨-, h2⟩ := h
    subst h2
    left; rfl
  · exact collect_stage_cases c st i msg st' h

theorem ta_stage_cases (c : Collab) (st : SessionState) (i : String) :
    (handle_tech_assessment_stage c st i).2.stage = st.stage ∨
      (handle_tech_assessment_stage c st i).2.stage = Stage.technical_questions := by
  simp only [handle_tech_assessment_stage]
  split_ifs
  · left; rfl
  · right; rfl

theorem tq_stage_cases (c : Collab) (st : SessionState) (i msg : String)
    (st' : SessionState) (h : handle_technical_questions_stage c st i = some (msg, st')) :
    st'.stage = st.stage ∨ st'.stage = Stage.completion := by
  simp only [handle_technical_questions_stage] at h
  split_ifs at h
  · simp only [Option.some.injEq, Prod.mk.injEq] at h
    obtain ⟨-, h2⟩ := h
    subst h2
    left; rfl
  · simp only [Option.some.injEq, Prod.mk.injEq] at h
    obtain ⟨-, h2⟩ := h
    subst h2
    left; rfl
  · -- previous answer stored, cursor at/after the last question: completion
    split at h
    · exact Option.noConfusion h
    · next st1 heq =>
      have hst1 : st1.stage = st.stage := by
        split at heq
        · exact Option.noConfusion heq
        · obtain rfl := Option.some.inj heq
          rfl
      simp only [Option.some.injEq, Prod.mk.injEq] at h
      obtain ⟨-, h2⟩ := h
      subst h2
      right; rfl
  · -- previous answer stored, next question emitted: stage unchanged
    split at h
    · exact Option.noConfusion h
    · next st1 heq =>
      have hst1 : st1.stage = st.stage := by
        split at heq
        · exact Option.noConfusion heq
        · obtain rfl := Option.some.inj heq
          rfl
      split at h
      · exact Option.noConfusion h
      · simp only [Option.some.injEq, Prod.mk.injEq] at h
        obtain ⟨-, h2⟩ := h
        subst h2
        left; exact hst1
  · -- nothing stored, completion
    simp only [Option.some.injEq, Prod.mk.injEq] at h
    obtain ⟨-, h2⟩ := h
    subst h2
    right; rfl
  · -- nothing stored, next question emitted
    simp only [Option.some.injEq, Prod.mk.injEq] at h
    split at h
    · exact Option.noConfusion h
    · simp only [Option.some.injEq, Prod.mk.injEq] at h
      obtain ⟨-, h2⟩ := h
      subst h2
      left; rfl

/-! Claim C6: stage movement discipline of `process_message`. -/

/-- Per-call stage discipline: either the input was an exact (case-insensitive,
trimmed) restart — after which the stage is Consent, because the restart
branch immediately runs the greeting handler — or the stage stays put or
advances exactly one position in the fixed linear order. -/
def c6Post (st st' : SessionState) (input : String) : Prop :=
  (pyStrip (pyLower input) = "restart" ∧ st'.stage = Stage.consent)
  ∨ stageIdx st'.stage = stageIdx st.stage
  ∨ stageIdx st'.stage = stageIdx st.stage + 1

/-- Claim C6 (amended): a `process_message` call never moves the stage
backward or skips ahead — it keeps the stage or advances it by exactly one —
except that an exact restart input leaves the fresh session at Consent (not
Greeting: the greeting handler runs inside the restart call). -/
theorem c6_amended (c : Collab) (st : SessionState) (input msg : String)
    (st' : SessionState) (h : process_message c st input = some (msg, st')) :
    c6Post st st' input := by
  unfold process_message at h
  split_ifs at h with h0 hre
  · -- empty input: state unchanged
    simp only [Option.some.injEq, Prod.mk.injEq] at h
    obtain ⟨-, h2⟩ := h
    subst h2
    right; left; rfl
  · -- non-empty input, exact restart
    split at h
    · -- an exit keyword inside "restart" (cannot happen, but state unchanged anyway)
      simp only [Option.some.injEq, Prod.mk.injEq] at h
      obtain ⟨-, h2⟩ := h
      subst h2
      right; left; rfl
    · exact Option.noConfusion h
    · -- restart: fresh session, greeting handler leaves the stage at Consent
      simp only [handle_greeting_stage, Option.some.injEq, Prod.mk.injEq] at h
      obtain ⟨-, h2⟩ := h
      subst h2
      left
      exact ⟨hre, rfl⟩
  · -- non-empty input, no restart
    split at h
    · -- exit keyword: state unchanged
      simp only [Option.some.injEq, Prod.mk.injEq] at h
      obtain ⟨-, h2⟩ := h
      subst h2
      right; left; rfl
    · exact Option.noConfusion h
    · -- stage dispatch
      split at h
      · -- greeting → consent
        next heq =>
          simp only [handle_greeting_stage, Option.some.injEq, Prod.mk.injEq] at h
          obtain ⟨-, h2⟩ := h
          subst h2
          right; right
          rw [heq]
          rfl
      · -- consent: stays or advances to info_collection
        next heq =>
          have h2 : (handle_consent_stage st input).2 = st' :=
            congrArg Prod.snd (Option.some.inj h)
          subst h2
          rcases consent_stage_cases st input with hc | hc
          · right; left; rw [hc]
          · right; right; rw [hc, heq]
            rfl
      · -- info_collection: stays or advances to tech_assessment
        next heq =>
          rcases info_stage_cases c st input msg st' h with hc | hc
          · right; left; rw [hc]
          · right; right; rw [hc, heq]
            rfl
      · -- tech_assessment: stays or advances to technical_questions
        next heq =>
          have h2 : (handle_tech_assessment_stage c st input).2 = st' :=
            congrArg Prod.snd (Option.some.inj h)
          subst h2
          rcases ta_stage_cases c st input with hc | hc
          · right; left; rw [hc]
          · right; right; rw [hc, heq]
            rfl
      · -- technical_questions: stays or advances to completion
        next heq =>
          rcases tq_stage_cases c st input msg st' h with hc | hc
          · right; left; rw [hc]
          · right; right; rw [hc, heq]
            rfl
      · -- completion: terminal
        simp only [Option.some.injEq, Prod.mk.injEq] at h
        obtain ⟨-, h2⟩ := h
        subst h2
        right; left; rfl

/-- Claim C6 (counterexample): an exact "restart" entered from the
TechnicalQuestions stage leaves the session at Consent — not Greeting as the
claim states — and this is a backward stage move not covered by the claim's
only exception. -/
theorem c6_counterexample :
    (process_message collab0 stTQ2 "restart").map (fun r => r.2.stage) = some Stage.consent
    ∧ Stage.consent ≠ Stage.greeting
    ∧ stageIdx Stage.consent < stageIdx stTQ2.stage := by
  refine ⟨by decide, by decide, by decide⟩

set_option maxRecDepth 4000 in
/-- Witness for C6: a concrete non-restart call (initial state, input
"hello") satisfying the amended discipline. -/
theorem c6_witness :
    process_message collab0 initialSessionState "hello"
      = some (greeting_message, { initialSessionState with stage := Stage.consent })
    ∧ c6Post initialSessionState { initialSessionState with stage := Stage.consent } "hello" := by
  have hp : process_message collab0 initialSessionState "hello"
      = some (greeting_message, { initialSessionState with stage := Stage.consent }) := by
    decide
  exact ⟨hp, c6_amended collab0 initialSessionState "hello" greeting_message _ hp⟩

/-! Claim C8: exit-keyword inputs short-circuit the stage machine. -/

/-- Claim C8 (confirmed): for every stage and every non-empty input whose
lowercased, trimmed text contains an exit keyword as a substring,
`process_message` returns exactly the farewell text and the session state —
stage included — is returned unchanged; no stage handler runs. -/
theorem c8_theorem (c : Collab) (st : SessionState) (input : String)
    (h0 : input ≠ "")
    (hk : EXIT_KEYWORDS.any
        (fun keyword => strContains (pyStrip (pyLower input)) keyword) = true) :
    process_message c st input = some (farewell_message, st) := by
  have hce : check_exit_intent input = ExitCheck.exitKeyword := by
    simp only [check_exit_intent]
    rw [if_neg h0]
    by_cases hl : EXIT_KEYWORDS.contains (pyStrip (pyLower input)) = true
    · rw [if_pos hl]
    · rw [if_neg hl, if_pos hk]
  unfold process_message
  rw [if_neg h0, hce]

/-- Witness for C8: "quit please" at the TechnicalQuestions stage. -/
theorem c8_witness :
    ("quit please" ≠ ("" : String))
    ∧ EXIT_KEYWORDS.any
        (fun keyword => strContains (pyStrip (pyLower "quit please")) keyword) = true
    ∧ process_message collab0 stTQ2 "quit please" = some (farewell_message, stTQ2) :=
  ⟨by decide, by decide, c8_theorem collab0 stTQ2 "quit please" (by decide) (by decide)⟩

/-! Claim C7: InfoCollection fills exactly the first missing field. -/

/-- The candidate record after one post-consent InfoCollection call: either
unchanged, or exactly the first absent field — in the fixed order name,
email, phone, experience — has been filled (sanitized text, or the parsed
float for experience); fields already present keep their values. -/
def c7Post (cd cd' : CandidateData) (input : String) : Prop :=
  cd' = cd
  ∨ (cd.name = none ∧ cd' = { cd with name := some (sanitize_input input) })
  ∨ (cd.name ≠ none ∧ cd.email = none ∧
      cd' = { cd with email := some (sanitize_input input) })
  ∨ (cd.name ≠ none ∧ cd.email ≠ none ∧ cd.phone = none ∧
      cd' = { cd with phone := some (sanitize_input input) })
  ∨ (cd.name ≠ none ∧ cd.email ≠ none ∧ cd.phone ≠ none ∧ cd.experience = none ∧
      ∃ v, parsePyFloat input = some v ∧ cd' = { cd with experience := some v })

/-- Claim C7 (confirmed): every InfoCollection call made after consent either
leaves the candidate record unchanged (validation failure, or nothing left to
collect) or writes exactly the first field absent from the record in the
fixed order name → email → phone → experience; fields already present are
never re-validated into new values or overwritten. -/
theorem c7_theorem (c : Collab) (st : SessionState) (input msg : String)
    (st' : SessionState)
    (hc : st.consent_given = true)
    (h : handle_info_collection_stage c st input = some (msg, st')) :
    c7Post st.candidate_data st'.candidate_data input := by
  unfold handle_info_collection_stage at h
  rw [hc] at h
  simp only [Bool.not_true, Bool.false_eq_true, if_false] at h
  simp only [collect_candidate_info] at h
  split_ifs at h with h1 h2 h3 h4 h5 h6 h7 h8
  · -- name invalid: unchanged
    obtain ⟨-, h9⟩ := Prod.mk.injEq .. ▸ Option.some.inj h
    subst h9
    left; rfl
  · -- name stored
    obtain ⟨-, h9⟩ := Prod.mk.injEq .. ▸ Option.some.inj h
    subst h9
    right; left
    exact ⟨h1, rfl⟩
  · -- email invalid
    obtain ⟨-, h9⟩ := Prod.mk.injEq .. ▸ Option.some.inj h
    subst h9
    left; rfl
  · -- email stored
    obtain ⟨-, h9⟩ := Prod.mk.injEq .. ▸ Option.some.inj h
    subst h9
    right; right; left
    exact ⟨h1, h3, rfl⟩
  · -- phone invalid
    obtain ⟨-, h9⟩ := Prod.mk.injEq .. ▸ Option.some.inj h
    subst h9
    left; rfl
  · -- phone stored
    obtain ⟨-, h9⟩ := Prod.mk.injEq .. ▸ Option.some.inj h
    subst h9
    right; right; right; left
    exact ⟨h1, h3, h5, rfl⟩
  · -- experience invalid
    obtain ⟨-, h9⟩ := Prod.mk.injEq .. ▸ Option.some.inj h
    subst h9
    left; rfl
  · -- experience stored (float parse succeeded)
    split at h
    · exact Option.noConfusion h
    · next years hyears =>
      obtain ⟨-, h9⟩ := Prod.mk.injEq .. ▸ Option.some.inj h
      subst h9
      right; right; right; right
      exact ⟨h1, h3, h5, h7, years, hyears, rfl⟩
  · -- every field present: unchanged
    obtain ⟨-, h9⟩ := Prod.mk.injEq .. ▸ Option.some.inj h
    subst h9
    left; rfl

set_option maxRecDepth 4000 in
/-- Witness for C7: with an empty record, "John Doe" fills exactly the name
field. -/
theorem c7_witness :
    stInfo.consent_given = true
    ∧ c7Post stInfo.candidate_data
        { stInfo.candidate_data with name := some (sanitize_input "John Doe") } "John Doe" :=
  ⟨rfl, c7_theorem collab0 stInfo "John Doe"
    "**Great! Now please provide your email address:**"
    { stInfo with candidate_data :=
        { stInfo.candidate_data with name := some (sanitize_input "John Doe") } }
    rfl rfl⟩

/-! Claim C1: answer keying and cursor advance in TechnicalQuestions. -/

/-- Outcome of a TechnicalQuestions call with cursor `k > 0` and non-blank
input: the call succeeds, the answer is stored under the key built from the
technology and index of question `k - 1`, and the cursor advances to `k + 1`
when `k < totalQuestions`, while at `k = totalQuestions` the cursor stays at
`k` and the stage moves to Completion. -/
def c1Post (c : Collab) (st : SessionState) (input : String) : Prop :=
  ∃ msg st', handle_technical_questions_stage c st input = some (msg, st')
    ∧ (∃ prev,
        (flattenQuestions st.technical_questions).get?
            (st.current_question_index - 1) = some prev
        ∧ dictLookup st'.candidate_data.answers
            (prev.1 ++ "_" ++ toString (st.current_question_index - 1))
          = some { question := prev.2, answer := sanitize_input input,
                   technology := prev.1 })
    ∧ (st.current_question_index < (flattenQuestions st.technical_questions).length →
        st'.current_question_index = st.current_question_index + 1 ∧ st'.stage = st.stage)
    ∧ (st.current_question_index = (flattenQuestions st.technical_questions).length →
        st'.current_question_index = st.current_question_index ∧ st'.stage = Stage.completion)

/-- Claim C1 (amended): for a TechnicalQuestions call with cursor `k > 0`,
non-blank input and `k ≤ totalQuestions`, the answer is stored keyed by the
technology of question `k - 1` together with index `k - 1`; the cursor
becomes exactly `k + 1` when `k < totalQuestions`, but on the call that
answers the final question (`k = totalQuestions`) the cursor stays at `k`
and the stage advances to Completion instead. -/
theorem c1_amended (c : Collab) (st : SessionState) (input : String)
    (hq : st.technical_questions ≠ [])
    (hk : 0 < st.current_question_index)
    (hin : pyStrip input ≠ "")
    (hle : st.current_question_index ≤ (flattenQuestions st.technical_questions).length) :
    c1Post c st input := by
  obtain ⟨prev, hprev⟩ : ∃ prev, (flattenQuestions st.technical_questions).get?
      (st.current_question_index - 1) = some prev := by
    cases hg : (flattenQuestions st.technical_questions).get?
        (st.current_question_index - 1) with
    | none =>
      have := List.get?_eq_none.mp hg
      omega
    | some p => exact ⟨p, rfl⟩
  have hg0 : (decide (st.current_question_index = 0)
      && !(["ready", "start", "begin", "yes"].contains (pyStrip (pyLower input)))) = false := by
    have h1 : decide (st.current_question_index = 0) = false := by
      simp only [decide_eq_false_iff_not]
      omega
    rw [h1, Bool.false_and]
  have hc1 : (decide (st.current_question_index > 0)
      && decide (pyStrip input ≠ "")) = true := by
    simp [hk, hin]
  have hhandler : handle_technical_questions_stage c st input
      = if st.current_question_index ≥ (flattenQuestions st.technical_questions).length then
          some (complete_assessment_message
              { st with
                candidate_data := { st.candidate_data with
                  answers := dictInsert st.candidate_data.answers
                    (prev.1 ++ "_" ++ toString (st.current_question_index - 1))
                    { question := prev.2, answer := sanitize_input input,
                      technology := prev.1 } },
                messages := st.messages ++
                  [{ role := "assistant", content := c.evalResp prev.2 input prev.1 }] },
            { st with
              candidate_data := { st.candidate_data with
                answers := dictInsert st.candidate_data.answers
                  (prev.1 ++ "_" ++ toString (st.current_question_index - 1))
                  { question := prev.2, answer := sanitize_input input,
                    technology := prev.1 } },
              messages := st.messages ++
                [{ role := "assistant", content := c.evalResp prev.2 input prev.1 }],
              stage := Stage.completion })
        else
          match (flattenQuestions st.technical_questions).get? st.current_question_index with
          | none => none
          | some tq =>
            some (question_prompt st.current_question_index
                (flattenQuestions st.technical_questions).length tq.1 tq.2,
              { st with
                candidate_data := { st.candidate_data with
                  answers := dictInsert st.candidate_data.answers
                    (prev.1 ++ "_" ++ toString (st.current_question_index - 1))
                    { question := prev.2, answer := sanitize_input input,
                      technology := prev.1 } },
                messages := st.messages ++
                  [{ role := "assistant", content := c.evalResp prev.2 input prev.1 }],
                current_question_index := st.current_question_index + 1 }) := by
    simp only [handle_technical_questions_stage]
    rw [if_neg hq, hg0]
    simp only [Bool.false_eq_true, if_false]
    rw [hc1]
    simp only [if_true]
    rw [hprev]
  rcases Nat.lt_or_ge st.current_question_index
      (flattenQuestions st.technical_questions).length with hlt | hge
  · -- a further question exists: ask it, cursor k + 1
    obtain ⟨tq, htq⟩ : ∃ tq, (flattenQuestions st.technical_questions).get?
        st.current_question_index = some tq := by
      cases hg : (flattenQuestions st.technical_questions).get?
          st.current_question_index with
      | none =>
        have := List.get?_eq_none.mp hg
        omega
      | some p => exact ⟨p, rfl⟩
    rw [if_neg (by omega), htq] at hhandler
    refine ⟨_, _, hhandler, ⟨prev, hprev, ?_⟩, fun _ => ⟨rfl, rfl⟩, fun he => absurd he (by omega)⟩
    exact dictLookup_dictInsert _ _ _
  · -- final answer: completion, cursor unchanged
    rw [if_pos hge] at hhandler
    refine ⟨_, _, hhandler, ⟨prev, hprev, ?_⟩, fun hlt2 => absurd hlt2 (by omega),
      fun _ => ⟨rfl, rfl⟩⟩
    exact dictLookup_dictInsert _ _ _

set_option maxRecDepth 8000 in
/-- Claim C1 (counterexample): with one question and cursor `k = 1` (= total),
a non-empty answer is stored under key `python_0` as the claim says, but the
cursor stays at 1 instead of advancing to `k + 1 = 2` — the handler moves to
Completion without incrementing. -/
theorem c1_counterexample :
    (handle_technical_questions_stage collab0 stTQ1 "my answer").map
        (fun r => r.2.current_question_index) = some stTQ1.current_question_index
    ∧ (handle_technical_questions_stage collab0 stTQ1 "my answer").map
        (fun r => r.2.current_question_index) ≠ some (stTQ1.current_question_index + 1)
    ∧ (handle_technical_questions_stage collab0 stTQ1 "my answer").map
        (fun r => dictLookup r.2.candidate_data.answers "python_0")
      = some (some { question := "Q1", answer := "my answer", technology := "python" }) :=
  ⟨by decide, by decide, by decide⟩

set_option maxRecDepth 8000 in
/-- Witness for C1: two questions, cursor 1, answer "my answer": stored under
`python_0`, cursor advances to 2. -/
theorem c1_witness :
    (stTQ2.technical_questions ≠ [] ∧ 0 < stTQ2.current_question_index
      ∧ pyStrip "my answer" ≠ ""
      ∧ stTQ2.current_question_index ≤ (flattenQuestions stTQ2.technical_questions).length)
    ∧ c1Post collab0 stTQ2 "my answer" :=
  ⟨⟨by decide, by decide, by decide, by decide⟩,
   c1_amended collab0 stTQ2 "my answer" (by decide) (by decide) (by decide) (by decide)⟩

/-! Claim C10: whitespace-only input in TechnicalQuestions drops the answer. -/

/-- Outcome of a TechnicalQuestions `process_message` call with cursor
`k > 0`, `k < totalQuestions`, and non-empty but whitespace-only input: no
answer is stored and no evaluation message is appended, yet the question at
index `k` is emitted and the cursor advances to `k + 1`. -/
def c10Post (c : Collab) (st : SessionState) (input : String) : Prop :=
  ∃ tq st',
    (flattenQuestions st.technical_questions).get? st.current_question_index = some tq
    ∧ process_message c st input
        = some (question_prompt st.current_question_index
            (flattenQuestions st.technical_questions).length tq.1 tq.2, st')
    ∧ st'.candidate_data = st.candidate_data
    ∧ st'.messages = st.messages
    ∧ st'.stage = st.stage
    ∧ st'.current_question_index = st.current_question_index + 1

/-- Claim C10 (confirmed): in the TechnicalQuestions stage with cursor
`k > 0` and a question at index `k`, an input that is non-empty but consists
only of whitespace passes the `process_message` empty-input guard, fails the
`strip()` check, stores no answer for question `k - 1`, performs no
evaluation (the message log is unchanged), yet emits the question at index
`k` and advances the cursor to `k + 1`. -/
theorem c10_theorem (c : Collab) (st : SessionState) (input : String)
    (hstage : st.stage = Stage.technical_questions)
    (hq : st.technical_questions ≠ [])
    (hk : 0 < st.current_question_index)
    (h0 : input ≠ "")
    (hws : input.data.all Char.isWhitespace = true)
    (hlt : st.current_question_index < (flattenQuestions st.technical_questions).length) :
    c10Post c st input := by
  have hlow : pyStrip (pyLower input) = "" := by
    rw [pyLower_of_whitespace input hws]
    exact pyStrip_of_whitespace input hws
  have hstrip : pyStrip input = "" := pyStrip_of_whitespace input hws
  have hce : check_exit_intent input = ExitCheck.noExit := by
    simp only [check_exit_intent]
    rw [if_neg h0, hlow]
    decide
  have hre : ¬(pyStrip (pyLower input) = "restart") := by
    rw [hlow]
    decide
  obtain ⟨tq, htq⟩ : ∃ tq, (flattenQuestions st.technical_questions).get?
      st.current_question_index = some tq := by
    cases hg : (flattenQuestions st.technical_questions).get?
        st.current_question_index with
    | none =>
      have := List.get?_eq_none.mp hg
      omega
    | some p => exact ⟨p, rfl⟩
  have hg0 : (decide (st.current_question_index = 0)
      && !(["ready", "start", "begin", "yes"].contains (pyStrip (pyLower input)))) = false := by
    have h1 : decide (st.current_question_index = 0) = false := by
      simp only [decide_eq_false_iff_not]
      omega
    rw [h1, Bool.false_and]
  have hc1 : (decide (st.current_question_index > 0)
      && decide (pyStrip input ≠ "")) = false := by
    have h1 : decide (pyStrip input ≠ "") = false := by
      simp [hstrip]
    rw [h1, Bool.and_false]
  have hproc : process_message c st input
      = handle_technical_questions_stage c st input := by
    unfold process_message
    rw [if_neg h0, hce]
    rw [if_neg hre, hstage]
  have hhandler : handle_technical_questions_stage c st input
      = some (question_prompt st.current_question_index
          (flattenQuestions st.technical_questions).length tq.1 tq.2,
        { st with current_question_index := st.current_question_index + 1 }) := by
    simp only [handle_technical_questions_stage]
    rw [if_neg hq, hg0]
    simp only [Bool.false_eq_true, if_false]
    rw [hc1]
    simp only [Bool.false_eq_true, if_false]
    rw [if_neg (by omega : ¬(st.current_question_index ≥
        (flattenQuestions st.technical_questions).length)), htq]
  exact ⟨tq, { st with current_question_index := st.current_question_index + 1 },
    htq, hproc.trans hhandler, rfl, rfl, rfl, rfl⟩

set_option maxRecDepth 8000 in
/-- Witness for C10: state with two questions, cursor 1, input a single
space. -/
theorem c10_witness :
    (stTQ2.stage = Stage.technical_questions ∧ stTQ2.technical_questions ≠ []
      ∧ 0 < stTQ2.current_question_index ∧ (" " : String) ≠ ""
      ∧ (" " : String).data.all Char.isWhitespace = true
      ∧ stTQ2.current_question_index < (flattenQuestions stTQ2.technical_questions).length)
    ∧ c10Post collab0 stTQ2 " " :=
  ⟨⟨rfl, by decide, by decide, by decide, by decide, by decide⟩,
   c10_theorem collab0 stTQ2 " " rfl (by decide) (by decide) (by decide) (by decide) (by decide)⟩

/-! Claim C4: validate_experience. -/

/-- Spec-side predicate: the parse result is a real (finite) number lying in
the closed interval [0, 50]. -/
def pyFloatInRange : Option PyFloat → Bool
  | some (PyFloat.finite q) => decide (0 ≤ q) && decide (q ≤ 50)
  | _ => false

/-- Claim C4 (counterexample): Python `float("nan")` succeeds, and NaN
compares false against both bounds, so `validate_experience "nan"` accepts an
input whose parsed value does not lie in [0, 50] — the claimed acceptance
condition is not exact. -/
theorem c4_counterexample :
    (validate_experience "nan").1 = true
    ∧ parsePyFloat "nan" = some PyFloat.nan
    ∧ pyFloatInRange (parsePyFloat "nan") = false :=
  ⟨by decide, by decide, by decide⟩

/-- Claim C4 (amended): `validate_experience` accepts exactly the non-empty
strings that parse as a Python float whose value is neither `< 0` nor `> 50`
under Python float comparisons — so NaN is also accepted, since NaN compares
false to both bounds; each of the four rejection cases (empty, negative,
above 50, unparseable) has its own distinct message, and the concrete round
trips of the claim hold: "2.5" is accepted with parsed value 5/2, "-1" is
rejected with the negative-years message, "abc" with the non-numeric
message. -/
theorem c4_amended (s : String) :
    ((validate_experience s).1 = true ↔
      (s ≠ "" ∧ ∃ x, parsePyFloat s = some x ∧ x.ltQ 0 = false ∧ x.gtQ 50 = false))
    ∧ validate_experience "2.5" = (true, "")
    ∧ parsePyFloat "2.5" = some (PyFloat.finite (mkRat 5 2))
    ∧ validate_experience "-1" = (false, "Years of experience cannot be negative")
    ∧ validate_experience "abc" = (false, "Please enter a valid number for years of experience")
    ∧ validate_experience "" = (false, "Years of experience is required")
    ∧ validate_experience "51" = (false, "Years of experience seems too high")
    ∧ ["Years of experience is required",
       "Years of experience cannot be negative",
       "Years of experience seems too high",
       "Please enter a valid number for years of experience"].Nodup := by
  refine ⟨?_, by decide, by decide, by decide, by decide, by decide, by decide, by decide⟩
  constructor
  · intro hv
    by_cases hs : s = ""
    · rw [hs] at hv
      exact absurd hv (by decide)
    refine ⟨hs, ?_⟩
    unfold validate_experience at hv
    rw [if_neg hs] at hv
    split at hv
    · exact absurd hv (by decide)
    · next x hp =>
      refine ⟨x, hp, ?_, ?_⟩
      · by_cases hx : x.ltQ 0 = true
        · rw [if_pos hx] at hv
          exact absurd hv (by decide)
        · simpa using hx
      · by_cases hx : x.ltQ 0 = true
        · rw [if_pos hx] at hv
          exact absurd hv (by decide)
        · rw [if_neg hx] at hv
          by_cases hy : x.gtQ 50 = true
          · rw [if_pos hy] at hv
            exact absurd hv (by decide)
          · simpa using hy
  · rintro ⟨hs, x, hp, hlt, hgt⟩
    unfold validate_experience
    rw [if_neg hs, hp]
    simp [hlt, hgt]

/-! Claim C3: the stored tech stack. -/

theorem filterMap_trim_eq (l : List (List Char)) :
    l.filterMap (fun t => let t' := pyStrip ⟨t⟩; if t' = "" then none else some t')
      = (l.map (fun t => pyStrip ⟨t⟩)).filter (fun t => t ≠ "") := by
  induction l with
  | nil => rfl
  | cons h t ih =>
    simp only [List.filterMap_cons, List.map_cons, List.filter_cons]
    by_cases hh : pyStrip ⟨h⟩ = ""
    · simp [hh, ih]
    · simp [hh, ih]

/-- The trimmed, non-empty separator-split tokens of the tech-stack input, in
input order (phrased as map-then-filter). -/
def c3Tokens (input : String) : List String :=
  ((splitOnPred techSep input.data).map (fun t => pyStrip ⟨t⟩)).filter (fun t => t ≠ "")

theorem techTokens_eq (s : String) : techTokens s = c3Tokens s := by
  unfold techTokens c3Tokens
  exact filterMap_trim_eq _

/-- After a successful TechAssessment step: the stored tech stack is exactly
the ordered list of trimmed non-empty tokens of the input (1 to 10 of them,
none empty, duplicates retained), and the stage advances. -/
def c3Post (r : String × SessionState) (input : String) : Prop :=
  r.2.candidate_data.tech_stack = some (c3Tokens input)
  ∧ r.2.stage = Stage.technical_questions
  ∧ c3Tokens input ≠ []
  ∧ (c3Tokens input).length ≤ 10
  ∧ ∀ t ∈ c3Tokens input, t ≠ ""

/-- Claim C3 (amended): on every accepted tech-stack input the stored
`tech_stack` is the ordered list of trimmed comma/semicolon/pipe/newline
separated tokens with empties dropped — input order preserved, 1 to 10
entries — but duplicates are NOT removed: the list need not be distinct. -/
theorem c3_amended (c : Collab) (st : SessionState) (input : String)
    (hv : (validate_tech_stack input).1 = true) :
    c3Post (handle_tech_assessment_stage c st input) input := by
  have hlen : techTokens input ≠ [] ∧ (techTokens input).length ≤ 10 := by
    simp only [validate_tech_stack] at hv
    split_ifs at hv with h1 h2 h3
    exact ⟨fun hnil => h2 (by rw [hnil]; rfl), by omega⟩
  simp only [handle_tech_assessment_stage, hv, Bool.not_true, Bool.false_eq_true, if_false]
  refine ⟨?_, rfl, ?_, ?_, ?_⟩
  · rw [techTokens_eq]
  · rw [← techTokens_eq]; exact hlen.1
  · rw [← techTokens_eq]; exact hlen.2
  · intro t ht
    have := (List.mem_filter.mp ht).2
    simpa using this

set_option maxRecDepth 8000 in
/-- Claim C3 (counterexample): the accepted input "Python, Python" is stored
as the duplicate-containing list ["Python", "Python"]; the stored tech stack
is not a list of distinct names. -/
theorem c3_counterexample :
    (handle_tech_assessment_stage collab0 stTA "Python, Python").2.candidate_data.tech_stack
      = some ["Python", "Python"]
    ∧ (handle_tech_assessment_stage collab0 stTA "Python, Python").2.stage
      = Stage.technical_questions
    ∧ ¬ (["Python", "Python"] : List String).Nodup :=
  ⟨by decide, by decide, by decide⟩

set_option maxRecDepth 8000 in
/-- Witness for C3: the spec's own scenario "Python, react , , AWS". -/
theorem c3_witness :
    (validate_tech_stack "Python, react , , AWS").1 = true
    ∧ c3Tokens "Python, react , , AWS" = ["Python", "react", "AWS"]
    ∧ c3Post (handle_tech_assessment_stage collab0 stTA "Python, react , , AWS")
        "Python, react , , AWS" :=
  ⟨by decide, by decide,
   c3_amended collab0 stTA "Python, react , , AWS" (by decide)⟩

/-! Claim C5: padding and truncation in `generate_technical_questions`. -/

/-- Claim C5 (amended): the returned list is always the parsed questions
extended by the three padding templates and truncated to the requested count
`n`, so its length is `min n (parsed + 3)`: exactly `n` questions whenever
`n ≤ parsed + 3` (in particular always for the default `n = 3` when at least
one question parses), but only `parsed + 3` questions when `n` exceeds the
parse count by more than the three available templates. -/
theorem c5_amended (model : Option (Nat → GenOutcome)) (pick : Nat) (technology : String)
    (exp : PyFloat) (n : Nat) :
    generate_technical_questions model pick technology exp n
      = (gtq_parsed model pick technology exp n ++ gtq_pad_templates technology).take n
    ∧ (generate_technical_questions model pick technology exp n).length
      = min n ((gtq_parsed model pick technology exp n).length + 3) := by
  have hpad : (gtq_pad_templates technology).length = 3 := rfl
  have heq : generate_technical_questions model pick technology exp n
      = (gtq_parsed model pick technology exp n ++ gtq_pad_templates technology).take n := by
    simp only [generate_technical_questions]
    set p := gtq_parsed model pick technology exp n with hp
    by_cases hlt : p.length < n
    · rw [if_pos hlt]
      have h1 : p.take n = p := List.take_of_length_le (Nat.le_of_lt hlt)
      rw [List.take_append_eq_append_take, List.take_append_eq_append_take, h1,
          List.take_take, Nat.min_self]
    · rw [if_neg hlt]
      have h0 : n - p.length = 0 := by omega
      rw [List.take_append_eq_append_take, h0, List.take_zero, List.append_nil]
  refine ⟨heq, ?_⟩
  rw [heq, List.length_take, List.length_append, hpad]

/-- An adapter model whose response parses to exactly one usable question. -/
def oracleOne : Nat → GenOutcome := fun _ => GenOutcome.text "1. Alpha beta."

/-- Claim C5 (counterexample): with one usable parsed question and requested
count `n = 5`, only the three templates are available for padding, so the
result has 4 questions, not the claimed exactly-`n`. -/
theorem c5_counterexample :
    gtq_parsed (some oracleOne) 0 "Python" (PyFloat.finite 2) 5 = ["Alpha beta."]
    ∧ (generate_technical_questions (some oracleOne) 0 "Python" (PyFloat.finite 2) 5).length = 4
    ∧ (4 : Nat) ≠ 5 :=
  ⟨by decide, by decide, by decide⟩

/-! Claim C9: the text-generation adapter's retry and fallback contract. -/

theorem genAttempts_raise (oracle : Nat → GenOutcome) (pick : Nat) (prompt : String)
    (max_retries : Nat) :
    ∀ (n a : Nat), (∀ i, i ∈ List.range' a n → oracle i = GenOutcome.raise) →
      a + n = max_retries →
      genAttempts oracle pick prompt max_retries (List.range' a n)
        = (fallback_response pick prompt,
           (List.range' a (n - 1)).map (fun i => 2 ^ i)) := by
  intro n
  induction n with
  | zero => intro a _ _; rfl
  | succ m ih =>
    intro a hall hsum
    have ha : oracle a = GenOutcome.raise :=
      hall a (by rw [List.range'_succ]; exact List.mem_cons_self _ _)
    rw [List.range'_succ]
    simp only [genAttempts]
    split
    · next s hs =>
      rw [ha] at hs
      exact GenOutcome.noConfusion hs
    · next hs =>
      by_cases hm : m = 0
      · subst hm
        rw [if_pos (by omega : a = max_retries - 1)]
        rfl
      · rw [if_neg (by omega : ¬(a = max_retries - 1))]
        rw [ih (a + 1)
          (fun i hi => hall i (by rw [List.range'_succ]; exact List.mem_cons_of_mem _ hi))
          (by omega)]
        obtain ⟨k, rfl⟩ : ∃ k, m = k + 1 := ⟨m - 1, by omega⟩
        rw [show k + 1 + 1 - 1 = k + 1 from rfl, List.range'_succ, List.map_cons]
        rfl

/-- Claim C9 (confirmed): the adapter's `generate_response` is total (the
embedding returns a string for every model, oracle, prompt and retry bound).
When the capability is unconfigured it returns the keyword-sniffed canned
response immediately, with no attempts and no sleeps; when every attempt
raises it returns the same canned response after the `max_retries` attempts,
having slept the exponentially doubling backoff `2^0, 2^1, …` between
attempts. The canned response is: the 3-item canned question list when the
prompt mentions "technical question"; otherwise one of the 3 canned
encouraging acknowledgments (chosen by the injected randomness) when it
mentions "evaluate" or "response"; otherwise the generic let's-continue
line. -/
theorem c9_theorem (oracle : Nat → GenOutcome) (pick max_retries : Nat)
    (prompt : String) :
    (generate_response none pick prompt max_retries = (fallback_response pick prompt, []))
    ∧ ((∀ a, a < max_retries → oracle a = GenOutcome.raise) →
        generate_response (some oracle) pick prompt max_retries
          = (fallback_response pick prompt,
             (List.range (max_retries - 1)).map (fun a => 2 ^ a)))
    ∧ (strContains (pyLower prompt) "technical question" = true →
        fallback_response pick prompt = fallback_technical_questions
        ∧ (pySplitChar '\n' fallback_technical_questions).length = 3)
    ∧ (strContains (pyLower prompt) "technical question" = false →
        (strContains (pyLower prompt) "evaluate"
          || strContains (pyLower prompt) "response") = true →
        fallback_response pick prompt ∈ fallback_evaluations
        ∧ fallback_evaluations.length = 3)
    ∧ (strContains (pyLower prompt) "technical question" = false →
        (strContains (pyLower prompt) "evaluate"
          || strContains (pyLower prompt) "response") = false →
        fallback_response pick prompt
          = "Thank you for your response. Let\x27s continue with the next step.") := by
  refine ⟨rfl, ?_, ?_, ?_, ?_⟩
  · intro hall
    show genAttempts oracle pick prompt max_retries (List.range max_retries)
      = (fallback_response pick prompt, (List.range (max_retries - 1)).map (fun a => 2 ^ a))
    rw [List.range_eq_range', List.range_eq_range']
    exact genAttempts_raise oracle pick prompt max_retries max_retries 0
      (fun i hi => hall i (by
        have h2 := List.mem_range'_1.mp hi
        omega))
      (Nat.zero_add _)
  · intro h
    unfold fallback_response
    rw [if_pos h]
    exact ⟨rfl, by decide⟩
  · intro h1 h2
    unfold fallback_response
    rw [if_neg (by simp [h1]), if_pos h2]
    have hlen : fallback_evaluations.length = 3 := rfl
    have hlt : pick % fallback_evaluations.length < fallback_evaluations.length := by
      rw [hlen]
      exact Nat.mod_lt _ (by norm_num)
    rw [List.get?_eq_get hlt]
    exact ⟨List.get_mem _ _ _, rfl⟩
  · intro h1 h2
    unfold fallback_response
    rw [if_neg (by simp [h1]), if_neg (by simp [h2])]

/-- Witness for C9: an always-raising oracle with the default retry bound 3
and a prompt that triggers the evaluation acknowledgment: the fallback is
returned after sleeps of 1 and 2 seconds, and it is one of the canned
acknowledgments. -/
theorem c9_witness :
    (∀ a, a < 3 → (fun _ => GenOutcome.raise) a = GenOutcome.raise)
    ∧ generate_response (some (fun _ => GenOutcome.raise)) 0 "please evaluate this" 3
        = (fallback_response 0 "please evaluate this", [1, 2])
    ∧ fallback_response 0 "please evaluate this" ∈ fallback_evaluations := by
  have h := c9_theorem (fun _ => GenOutcome.raise) 0 3 "please evaluate this"
  refine ⟨fun a _ => rfl, ?_, ?_⟩
  · have h2 := h.2.1 (fun a _ => rfl)
    rw [h2]
    rfl
  · exact (h.2.2.2.1 (by decide) (by decide)).1

/-! Claim C2: unknown technology with generation unavailable. -/

theorem gtq_prompt_contains_tq (technology : String) (exp : PyFloat) (n : Nat) :
    strContains (pyLower (gtq_prompt technology exp n)) "technical question" = true := by
  unfold gtq_prompt technical_question_generator_prompt
  apply strContains_pyLower_left
  apply strContains_pyLower_left
  apply strContains_pyLower_left
  apply strContains_pyLower_left
  apply strContains_pyLower_left
  apply strContains_pyLower_left
  apply strContains_pyLower_left
  apply strContains_pyLower_left
  apply strContains_pyLower_right
  decide

/-- The three canned adapter questions as parsed back by
`generate_technical_questions` (numbering stripped). -/
def parsed_fallback_questions : List String :=
  ["Describe a challenging project you\x27ve worked on and how you approached solving the technical problems.",
   "How do you ensure code quality and maintainability in your projects?",
   "Explain a time when you had to learn a new technology quickly. How did you approach it?"]

/-- Claim C2 (amended): for tech stack entry "Erlang" with the generative
backend unavailable, the Question Supplier returns exactly 3 questions — but
they are the adapter's canned fallback questions (which parse successfully,
so the static-bank / generic-template path is never reached), and none of
them contains the string "Erlang". -/
theorem c2_amended (pick : Nat) (sample : List String → Nat → List String)
    (exp : PyFloat) :
    dictLookup (generate_questions_for_tech_stack none pick sample ["Erlang"] 3 exp) "Erlang"
      = some parsed_fallback_questions
    ∧ parsed_fallback_questions.length = 3
    ∧ parsed_fallback_questions.all (fun q => !(strContains q "Erlang")) = true := by
  refine ⟨?_, by decide, by decide⟩
  have hgen : generate_technical_questions none pick "Erlang" exp 3
      = parsed_fallback_questions := by
    have hparsed : gtq_parsed none pick "Erlang" exp 3 = parsed_fallback_questions := by
      unfold gtq_parsed
      have hresp : (generate_response none pick (gtq_prompt "Erlang" exp 3) 3).1
          = fallback_technical_questions := by
        show fallback_response pick (gtq_prompt "Erlang" exp 3) = _
        unfold fallback_response
        rw [if_pos (gtq_prompt_contains_tq "Erlang" exp 3)]
      rw [hresp]
      decide
    simp only [generate_technical_questions]
    rw [hparsed]
    decide
  simp only [generate_questions_for_tech_stack, List.foldl_cons, List.foldl_nil]
  rw [hgen]
  rw [if_pos (by decide : parsed_fallback_questions ≠ [])]
  decide

set_option maxRecDepth 8000 in
/-- Claim C2 (counterexample): at the concrete experience 2.0 the supplier
result for "Erlang" is the canned adapter list, and none of its questions
contains "Erlang" — contradicting the claim that each references "Erlang". -/
theorem c2_counterexample :
    dictLookup (generate_questions_for_tech_stack none 0 defaultSample ["Erlang"] 3
        (PyFloat.finite 2)) "Erlang"
      = some parsed_fallback_questions
    ∧ parsed_fallback_questions.any (fun q => strContains q "Erlang") = false :=
  ⟨by decide, by decide⟩
